import Mathlib

/-!
Shallow embedding of the BADWALL moderation bot (Python, aiogram).

Files embedded:
  * `src/middlewares/profanity_middleware.py` — the `ProfanityMiddleware`
    class: the link detector `_has_urls`, the emoji range test `_is_emoji`,
    the forbidden-character detector `_has_forbidden_chars`, and the main
    pipeline `__call__`.
  * `src/utils/statistics.py` — the `Statistics` counters.
  * `src/config.py` — the configuration values the pipeline reads
    (`ALLOWED_CHAT_IDS`, `PROFANITY_THRESHOLD`, `EXEMPT_SENDER_CHAT_IDS`).
  * `src/bot.py` — `send_daily_stats` (snapshot of the statistics text
    followed by `statistics.reset()`), modelled as `snapshotAndReset`.

Modelling conventions:
  * Message text is a `List Char` of Unicode scalar values.
  * Probabilities returned by the external scorer `predict_proba` are
    rationals (`ℚ`); the Python code compares floats with `>=`.
  * External effects (privilege lookup, transcription, scorer, delete, ban)
    are supplied by an `Env` record: each field is the result the external
    collaborator would return for this one message.
  * Python truthiness of optional strings (`None` and `""` are falsy) is
    `pyTruthy`; `a or b or ""` on optional strings is `pyOr`.
-/

/-- Unicode scalar value of a character. -/
def charVal (c : Char) : Nat := c.toNat

/-- Membership status returned by `bot.get_chat_member`; the middleware only
distinguishes `CREATOR` and `ADMINISTRATOR` from everything else. -/
inductive MemberStatus
  | creator
  | administrator
  | member
  | restricted
  | left
  | kicked
deriving DecidableEq, Repr

/-- Message entity types the link check looks at (`MessageEntityType.URL`,
`MessageEntityType.TEXT_LINK`); everything else is `other`. -/
inductive EntityType
  | url
  | textLink
  | other
deriving DecidableEq, Repr

/-- Chat type of the incoming message (`event.chat.type`). -/
inductive ChatType
  | privateChat
  | group
  | supergroup
  | channel
deriving DecidableEq, Repr

/-- Sender of a message (`event.from_user`): only the id is relevant to the
control flow (`username` / `first_name` feed the notification text only). -/
structure User where
  id : Int
deriving DecidableEq, Repr

/-- The fields of an aiogram `Message` read by `ProfanityMiddleware.__call__`
and its helpers, plus `sender_chat` (read by nothing in the middleware, but
documented in `src/config.py` as the key for `EXEMPT_SENDER_CHAT_IDS`). -/
structure Message where
  chatId : Int
  chatType : ChatType
  fromUser : Option User
  senderChat : Option Int
  text : Option (List Char)
  caption : Option (List Char)
  entities : List EntityType
  captionEntities : List EntityType
  voice : Bool
deriving DecidableEq, Repr

/-- Python truthiness of an optional string: `None` and `""` are falsy. -/
def pyTruthy : Option (List Char) → Bool
  | none => false
  | some s => !s.isEmpty

/-- Python `a or b or ""` on two optional strings. -/
def pyOr (a b : Option (List Char)) : List Char :=
  if pyTruthy a then a.getD [] else if pyTruthy b then b.getD [] else []

/-- Python truthiness of the optional sender id (`if sender_id:`):
`None` and `0` are falsy. -/
def pyTruthyId : Option Int → Bool
  | none => false
  | some uid => uid != 0

/-! ### Classifiers (`profanity_middleware.py`) -/

/-- ASCII Latin letter, the `[a-zA-Z]` class of `re.search` in
`_has_forbidden_chars`. -/
def isLatin (c : Char) : Bool :=
  ('a' ≤ c && c ≤ 'z') || ('A' ≤ c && c ≤ 'Z')

/-- The character class of `forbidden_special_chars_pattern`:
`[@#$%^&*+=|\\/<>~` + backtick + `]`. -/
def forbiddenSpecials : List Char :=
  ['@', '#', '$', '%', '^', '&', '*', '+', '=', '|', '\\', '/', '<', '>', '~',
   Char.ofNat 96]

/-- Direct translation of `ProfanityMiddleware._is_emoji`: the nine unicode
code-point ranges tested there. -/
def is_emoji (c : Char) : Bool :=
  let n := charVal c
  (0x1F300 ≤ n && n ≤ 0x1F9FF) ||
  (0x2600 ≤ n && n ≤ 0x26FF) ||
  (0x2700 ≤ n && n ≤ 0x27BF) ||
  (0xFE00 ≤ n && n ≤ 0xFE0F) ||
  (0x1F3FB ≤ n && n ≤ 0x1F3FF) ||
  (0x1F1E6 ≤ n && n ≤ 0x1F1FF) ||
  (0x1F900 ≤ n && n ≤ 0x1F9FF) ||
  (0x1F680 ≤ n && n ≤ 0x1F6FF) ||
  (0x1FA00 ≤ n && n ≤ 0x1FAFF)

/-- The punctuation and space characters the per-character loop of
`_has_forbidden_chars` allows: the Python string literal
`' .,!?:;-()[]\x7b\x7d"\'«»—…'`. -/
def allowedPunct : List Char :=
  [' ', '.', ',', '!', '?', ':', ';', '-', '(', ')', '[', ']',
   Char.ofNat 123, Char.ofNat 125, '"', '\'', '«', '»', '—', '…']

/-- Python `char.isdigit()`. The source only ever reaches this test for
characters that are not Latin letters and not forbidden specials; ASCII
decimal digits are the case exercised here (Python additionally accepts
other Unicode decimal-digit characters, which no theorem below touches). -/
def pyIsDigit (c : Char) : Bool := c.isDigit

/-- One character is allowed by the per-character loop of
`_has_forbidden_chars`: Cyrillic block (with the source's redundant explicit
ё/Ё cases), digits, allowed punctuation and spaces, or emoji. -/
def loopAllows (c : Char) : Bool :=
  (0x400 ≤ charVal c && charVal c ≤ 0x4FF) || charVal c = 0x451 ||
    charVal c = 0x401 ||
  pyIsDigit c || allowedPunct.contains c || is_emoji c

/-- Direct translation of `ProfanityMiddleware._has_forbidden_chars`:
empty text is clean; any Latin letter, any forbidden special character, or
any character the per-character loop does not allow makes the text dirty. -/
def has_forbidden_chars (t : List Char) : Bool :=
  if t.isEmpty then false
  else
    t.any isLatin ||
    t.any (fun c => forbiddenSpecials.contains c) ||
    t.any (fun c => !loopAllows c)

/-! ### The URL regular expression

`url_pattern` is
`(?i)\b(?:https?://|www\.|t\.me/|telegram\.me/)[^\s<>"\x7b\x7d|\\^`…`]+`
searched over the text. The model scans every starting position, requires a
word boundary before the alternation (every alternative starts with a word
character, so the boundary holds exactly when the previous character is not
a word character), matches one of the four literal alternatives
case-insensitively, and then requires at least one character outside the
excluded tail class. -/

/-- Lower-case an ASCII letter (case-insensitive matching of the literal
URL schemes, which are ASCII). -/
def lowerAscii (c : Char) : Char :=
  if 'A' ≤ c && c ≤ 'Z' then Char.ofNat (charVal c + 32) else c

/-- Match the (already lower-case) literal `p` case-insensitively at the
head of `s`; return the rest of `s` on success. -/
def dropCI : List Char → List Char → Option (List Char)
  | [], s => some s
  | _ :: _, [] => none
  | p :: ps, c :: cs => if lowerAscii c = p then dropCI ps cs else none

/-- The four alternatives of the URL pattern, as lower-case literals. -/
def urlSchemeList : List (List Char) :=
  [['h', 't', 't', 'p', ':', '/', '/'],
   ['h', 't', 't', 'p', 's', ':', '/', '/'],
   ['w', 'w', 'w', '.'],
   ['t', '.', 'm', 'e', '/'],
   ['t', 'e', 'l', 'e', 'g', 'r', 'a', 'm', '.', 'm', 'e', '/']]

/-- Python `\s` (whitespace) for the purposes of the URL tail class. -/
def isPySpace (c : Char) : Bool :=
  let n := charVal c
  n = 32 || (9 ≤ n && n ≤ 13) || (0x1C ≤ n && n ≤ 0x1F) || n = 0x85 ||
  n = 0xA0 || n = 0x1680 || (0x2000 ≤ n && n ≤ 0x200A) || n = 0x2028 ||
  n = 0x2029 || n = 0x202F || n = 0x205F || n = 0x3000

/-- The explicitly excluded characters of the URL tail class
`[^\s<>"\x7b\x7d|\\^` + backtick + `[\]]`. -/
def urlTailExcluded : List Char :=
  ['<', '>', '"', Char.ofNat 123, Char.ofNat 125, '|', '\\', '^',
   Char.ofNat 96, '[', ']']

/-- A character admissible in the `+` tail of the URL pattern. -/
def urlTailOk (c : Char) : Bool :=
  !isPySpace c && !urlTailExcluded.contains c

/-- Word character for the `\b` boundary. The pattern's alternatives start
with ASCII letters, so the boundary holds iff the preceding character is not
a word character; word characters here are ASCII alphanumerics, underscore,
and the Cyrillic block (the scripts occurring in this code base; Python's
Unicode `\w` is wider but only for scripts no theorem below uses). -/
def isWordChar (c : Char) : Bool :=
  c.isAlphanum || c = '_' || (0x400 ≤ charVal c && charVal c ≤ 0x4FF)

/-- The URL pattern matches at the head of `s`: one of the four scheme
literals, followed by at least one admissible tail character. -/
def urlMatchHere (s : List Char) : Bool :=
  urlSchemeList.any fun p =>
    match dropCI p s with
    | some (c :: _) => urlTailOk c
    | some [] => false
    | none => false

/-- Scan of `url_pattern.search`: try a match at every position whose
preceding character (`prev`, `none` at the start of the text) yields a word
boundary. -/
def urlScan : Option Char → List Char → Bool
  | _, [] => false
  | prev, c :: cs =>
    ((match prev with
      | none => true
      | some p => !isWordChar p) && urlMatchHere (c :: cs)) ||
    urlScan (some c) cs

/-- `self.url_pattern.search(text)` finds a match somewhere in `text`. -/
def urlSearch (t : List Char) : Bool := urlScan none t

/-- An entity whose type is `URL` or `TEXT_LINK`. -/
def isLinkEntity (e : EntityType) : Bool :=
  e = EntityType.url || e = EntityType.textLink

/-- Direct translation of `ProfanityMiddleware._has_urls`: link entities in
`entities`, link entities in `caption_entities`, or a regex match over
`message.text or message.caption or ""` (guarded by Python truthiness of
that string, as in the source). -/
def has_urls (m : Message) : Bool :=
  m.entities.any isLinkEntity ||
  m.captionEntities.any isLinkEntity ||
  (let t := pyOr m.text m.caption
   !t.isEmpty && urlSearch t)

/-! ### Statistics (`src/utils/statistics.py`) -/

/-- The per-chat counter record stored in `Statistics.by_chat` (the
defaultdict's default value has every field 0). -/
structure ChatStats where
  checked : Nat
  deleted : Nat
  deleted_forbidden_chars : Nat
  deleted_urls : Nat
  deleted_profanity : Nat
  banned : Nat
deriving DecidableEq, Repr

/-- The defaultdict default: all six per-chat counters at 0. -/
def ChatStats.init : ChatStats := ⟨0, 0, 0, 0, 0, 0⟩

/-- The state of the Python `Statistics` object. `by_chat` is the
defaultdict, as an association list with distinct keys in insertion order;
`start_date` is an abstract timestamp (`datetime.now()` at reset time). -/
structure Statistics where
  total_checked : Nat
  total_deleted : Nat
  deleted_forbidden_chars : Nat
  deleted_urls : Nat
  deleted_profanity : Nat
  total_banned : Nat
  by_chat : List (Int × ChatStats)
  start_date : Nat
deriving DecidableEq, Repr

/-- `Statistics.reset`: every counter back to 0, the defaultdict replaced by
a fresh empty one, `start_date = datetime.now()` (the `now` argument). The
previous state is discarded entirely. -/
def Statistics.reset (_s : Statistics) (now : Nat) : Statistics :=
  ⟨0, 0, 0, 0, 0, 0, [], now⟩

/-- Fresh `Statistics()` object (the constructor calls `reset`). -/
def Statistics.init (now : Nat) : Statistics := ⟨0, 0, 0, 0, 0, 0, [], now⟩

/-- Update the defaultdict entry of `cid` with `f`, inserting the default
record first when the key is absent (`self.by_chat[chat_id][...] += 1`). -/
def updateChat : List (Int × ChatStats) → Int → (ChatStats → ChatStats) →
    List (Int × ChatStats)
  | [], cid, f => [(cid, f ChatStats.init)]
  | (k, v) :: rest, cid, f =>
    if k = cid then (k, f v) :: rest else (k, v) :: updateChat rest cid f

/-- `Statistics.add_checked`. -/
def Statistics.add_checked (s : Statistics) (cid : Int) : Statistics :=
  { s with
    total_checked := s.total_checked + 1,
    by_chat := updateChat s.by_chat cid fun c =>
      { c with checked := c.checked + 1 } }

/-- `Statistics.add_deleted`: always bumps the total and the per-chat
`deleted`; additionally bumps the per-category counters when
`deletion_type` is one of the three recognised strings (any other string,
including the default `"unknown"`, updates no category counter). -/
def Statistics.add_deleted (s : Statistics) (cid : Int) (dt : String) :
    Statistics :=
  let s1 : Statistics :=
    { s with
      total_deleted := s.total_deleted + 1,
      by_chat := updateChat s.by_chat cid fun c =>
        { c with deleted := c.deleted + 1 } }
  if dt = "forbidden_chars" then
    { s1 with
      deleted_forbidden_chars := s1.deleted_forbidden_chars + 1,
      by_chat := updateChat s1.by_chat cid fun c =>
        { c with deleted_forbidden_chars := c.deleted_forbidden_chars + 1 } }
  else if dt = "urls" then
    { s1 with
      deleted_urls := s1.deleted_urls + 1,
      by_chat := updateChat s1.by_chat cid fun c =>
        { c with deleted_urls := c.deleted_urls + 1 } }
  else if dt = "profanity" then
    { s1 with
      deleted_profanity := s1.deleted_profanity + 1,
      by_chat := updateChat s1.by_chat cid fun c =>
        { c with deleted_profanity := c.deleted_profanity + 1 } }
  else s1

/-- `Statistics.add_banned`. -/
def Statistics.add_banned (s : Statistics) (cid : Int) : Statistics :=
  { s with
    total_banned := s.total_banned + 1,
    by_chat := updateChat s.by_chat cid fun c =>
      { c with banned := c.banned + 1 } }

/-- `send_daily_stats` in `src/bot.py`: capture the current totals for the
report, then call `statistics.reset()`. The captured snapshot is the whole
pre-reset state; rendering it to text is pure formatting outside the core. -/
def snapshotAndReset (s : Statistics) (now : Nat) : Statistics × Statistics :=
  (s, s.reset now)

/-! ### Configuration (`src/config.py`) -/

/-- The configuration values the pipeline reads. `exemptSenderChatIds` is
`EXEMPT_SENDER_CHAT_IDS`, documented in `src/config.py` as the list of
`sender_chat.id` values whose messages are not to be moderated. -/
structure Config where
  allowedChatIds : List Int
  threshold : ℚ
  exemptSenderChatIds : List Int
deriving Repr

/-! ### The moderation pipeline (`ProfanityMiddleware.__call__`) -/

/-- Results of the external collaborators for one message: whether
`data.get("bot")` is present, the outcome of `bot.get_chat_member`
(`Except.error` models the raised exception the source catches), the result
of `_transcribe_voice` (`none` covers every failure mode), the scorer
`swear_checker.predict_proba` (the source's list branch; `max` of an empty
list would raise in Python, so theorems that reach the scorer assume the
list nonempty), and whether `event.delete()` / `bot.ban_chat_member`
succeed (`false` models the raised exception the source catches). -/
structure Env where
  hasBot : Bool
  adminLookup : Except Unit MemberStatus
  transcription : Option (List Char)
  proba : List Char → List ℚ
  deleteOk : Bool
  banOk : Bool

/-- Python `max` over the scorer's list (`max_proba = max(proba)`); the
empty case is unreachable under the nonemptiness assumption above. -/
def maxProba : List ℚ → ℚ
  | [] => 0
  | x :: xs => xs.foldl max x

/-- What `__call__` did with the message: `passedOn` means
`await handler(event, data)` ran; `dropped` means the middleware returned
without calling the handler. -/
inductive Outcome
  | passedOn
  | dropped
deriving DecidableEq, Repr

/-- Observable result of one `__call__` run: the outcome, whether
`event.delete()` was invoked, whether `bot.ban_chat_member` was invoked,
whether `_send_ban_notification` was invoked, and the statistics state
afterwards. -/
structure Result where
  outcome : Outcome
  deleteAttempted : Bool
  banAttempted : Bool
  notified : Bool
  stats : Statistics
deriving DecidableEq, Repr

/-- The admin shortcut of `__call__`: runs only when `sender_id` is truthy
and the bot object is present; a `CREATOR`/`ADMINISTRATOR` status skips
moderation; a failed lookup logs a warning and continues checking. -/
def adminSkips (env : Env) (senderId : Option Int) : Bool :=
  if pyTruthyId senderId && env.hasBot then
    match env.adminLookup with
    | Except.ok st =>
      st = MemberStatus.creator || st = MemberStatus.administrator
    | Except.error _ => false
  else false

/-- The voice branch of `__call__` (lines guarded by `if event.voice:`).
Returns `some r` when the source `return`s inside the branch, `none` when
control falls through to the text/caption checks. Statistics updates sit
inside the `try` after `event.delete()`, so a failed delete (the `except`
arm) records nothing; in this branch the ban is also inside that same
`try`, after the statistics, so a failed delete attempts no ban. -/
def voicePhase (cfg : Config) (env : Env) (m : Message)
    (senderId : Option Int) (s0 : Statistics) : Option Result :=
  if m.voice && env.hasBot then
    match env.transcription with
    | some t =>
      if has_forbidden_chars t then
        some (if env.deleteOk then
          ⟨Outcome.dropped, true, false, false,
            (s0.add_checked m.chatId).add_deleted m.chatId "forbidden_chars"⟩
        else ⟨Outcome.dropped, true, false, false, s0⟩)
      else
        if maxProba (env.proba t) ≥ cfg.threshold then
          some (if env.deleteOk then
            let s1 :=
              (s0.add_checked m.chatId).add_deleted m.chatId "profanity"
            if env.hasBot && pyTruthyId senderId then
              if env.banOk then
                ⟨Outcome.dropped, true, true, true, s1.add_banned m.chatId⟩
              else ⟨Outcome.dropped, true, true, false, s1⟩
            else ⟨Outcome.dropped, true, false, false, s1⟩
          else ⟨Outcome.dropped, true, false, false, s0⟩)
        else none
    | none => none
  else none

/-- The text/caption branch of `__call__` (guarded by
`if event.text or event.caption:`). Forbidden characters and links record
statistics only when the delete succeeded (the updates are inside the
delete's `try`); for the profanity branch `add_checked` has already run
before the scorer, `add_deleted` is inside the delete's `try`, and the ban
sits in its own `try` after it, so the ban is attempted even when the
delete failed. -/
def textPhase (cfg : Config) (env : Env) (m : Message)
    (senderId : Option Int) (s0 : Statistics) : Result :=
  if pyTruthy m.text || pyTruthy m.caption then
    let message_text := pyOr m.text m.caption
    if has_forbidden_chars message_text then
      if env.deleteOk then
        ⟨Outcome.dropped, true, false, false,
          (s0.add_checked m.chatId).add_deleted m.chatId "forbidden_chars"⟩
      else ⟨Outcome.dropped, true, false, false, s0⟩
    else if has_urls m then
      if env.deleteOk then
        ⟨Outcome.dropped, true, false, false,
          (s0.add_checked m.chatId).add_deleted m.chatId "urls"⟩
      else ⟨Outcome.dropped, true, false, false, s0⟩
    else
      let s1 := s0.add_checked m.chatId
      if maxProba (env.proba message_text) ≥ cfg.threshold then
        let s2 := if env.deleteOk then s1.add_deleted m.chatId "profanity"
                  else s1
        if env.hasBot && pyTruthyId senderId then
          if env.banOk then
            ⟨Outcome.dropped, true, true, true, s2.add_banned m.chatId⟩
          else ⟨Outcome.dropped, true, true, false, s2⟩
        else ⟨Outcome.dropped, true, false, false, s2⟩
      else ⟨Outcome.passedOn, false, false, false, s1⟩
  else ⟨Outcome.passedOn, false, false, false, s0⟩

/-- Direct translation of `ProfanityMiddleware.__call__` for a `Message`
event, with `self.statistics` present (as wired in `src/bot.py`): private
chats pass straight to the handler; group messages from chats outside
`ALLOWED_CHAT_IDS` are silently dropped; creators/administrators (when the
lookup succeeds) pass to the handler; then the voice branch, then the
text/caption branch, and finally `await handler(event, data)`. -/
def processMessage (cfg : Config) (env : Env) (m : Message)
    (s0 : Statistics) : Result :=
  if m.chatType = ChatType.privateChat then
    ⟨Outcome.passedOn, false, false, false, s0⟩
  else if !(cfg.allowedChatIds.contains m.chatId) then
    ⟨Outcome.dropped, false, false, false, s0⟩
  else
    let senderId : Option Int := m.fromUser.map User.id
    if adminSkips env senderId then
      ⟨Outcome.passedOn, false, false, false, s0⟩
    else
      match voicePhase cfg env m senderId s0 with
      | some r => r
      | none => textPhase cfg env m senderId s0

/-! ### Statistics operation sequences

The pipeline calls `add_checked`, `add_deleted` (with one of the three
recognised `deletion_type` strings) and `add_banned`; `StatOp` abstracts
one such call so invariants can be proved over arbitrary interleavings. -/

/-- One recorded statistics call. -/
inductive StatOp
  | opChecked (cid : Int)
  | opDeleted (cid : Int) (dt : String)
  | opBanned (cid : Int)

/-- Apply one statistics call to the state. -/
def applyOp (s : Statistics) : StatOp → Statistics
  | StatOp.opChecked cid => s.add_checked cid
  | StatOp.opDeleted cid dt => s.add_deleted cid dt
  | StatOp.opBanned cid => s.add_banned cid

/-- Apply a sequence of statistics calls in order. -/
def applyOps (s : Statistics) (ops : List StatOp) : Statistics :=
  ops.foldl applyOp s

/-- A deletion call made by the pipeline always carries one of the three
recognised deletion types. -/
def validOp : StatOp → Prop
  | StatOp.opDeleted _ dt =>
    dt = "forbidden_chars" ∨ dt = "urls" ∨ dt = "profanity"
  | _ => True

instance : DecidablePred validOp := fun op => by
  cases op <;> simp [validOp] <;> infer_instance

/-- Sum of one per-chat counter over all chats of the defaultdict. -/
def sumBy : List (Int × ChatStats) → (ChatStats → Nat) → Nat
  | [], _ => 0
  | p :: rest, f => f p.2 + sumBy rest f

/-- The cross-counter invariant of `Statistics`: each global counter equals
the sum of its per-chat counterparts, and the global deletion total equals
the sum of the three per-category deletion counters. -/
def statInvariant (s : Statistics) : Prop :=
  s.total_checked = sumBy s.by_chat (fun c => c.checked) ∧
  s.total_deleted = sumBy s.by_chat (fun c => c.deleted) ∧
  s.total_deleted =
    s.deleted_forbidden_chars + s.deleted_urls + s.deleted_profanity ∧
  s.total_banned = sumBy s.by_chat (fun c => c.banned)

/-! ### Concrete fixtures used by the scenario theorems -/

/-- Configuration with chat 100 allowed and the recommended 0.7 threshold. -/
def testConfig : Config :=
  { allowedChatIds := [100], threshold := 7/10, exemptSenderChatIds := [] }

/-- Environment where every external collaborator behaves: the bot object
is present, the sender is a plain member, deletion and ban succeed, and the
scorer reports a low probability. -/
def envOk : Env :=
  { hasBot := true, adminLookup := Except.ok MemberStatus.member,
    transcription := none, proba := fun _ => [1/100],
    deleteOk := true, banOk := true }

/-- A plain text message from user `uid` in chat `cid`. -/
def textMessage (cid uid : Int) (txt : List Char) : Message :=
  { chatId := cid, chatType := ChatType.supergroup, fromUser := some ⟨uid⟩,
    senderChat := none, text := some txt, caption := none,
    entities := [], captionEntities := [], voice := false }

/-- The spec scenario text `"hello"`. -/
def helloText : List Char := ['h', 'e', 'l', 'l', 'o']

/-- A Russian greeting: no Latin letters, no forbidden specials, every
character in the Cyrillic block. -/
def privetText : List Char := ['п', 'р', 'и', 'в', 'е', 'т']

/-- The spec scenario text `"visit http://x.com"`. -/
def visitUrlText : List Char :=
  ['v', 'i', 's', 'i', 't', ' ', 'h', 't', 't', 'p', ':', '/', '/',
   'x', '.', 'c', 'o', 'm']

/-- The scenario message for `"visit http://x.com"`: Telegram would also
attach a `URL` entity for the recognised link, which is included here. -/
def visitUrlMessage : Message :=
  { textMessage 100 7 visitUrlText with entities := [EntityType.url] }

/-- A voice message in chat 100 carrying the caption `"abc"`. -/
def voiceCaptioned : Message :=
  { chatId := 100, chatType := ChatType.supergroup, fromUser := some ⟨7⟩,
    senderChat := none, text := none, caption := some ['a', 'b', 'c'],
    entities := [], captionEntities := [], voice := true }

/-- A voice message in chat 100 with no caption. -/
def voicePure : Message := { voiceCaptioned with caption := none }

/-- Environment whose transcription succeeds with the clean Russian text. -/
def envVoiceOk : Env := { envOk with transcription := some privetText }

/-- The captioned voice message with a clean Russian caption. -/
def voiceCapClean : Message := { voiceCaptioned with caption := some ['о', 'й'] }

/-- Environment whose scorer reports probability exactly 0.7 — the
configured threshold of `testConfig`. -/
def envHot : Env := { envOk with proba := fun _ => [7/10] }

/-- Configuration declaring sender-chat 500 exempt from moderation
(`EXEMPT_SENDER_CHAT_IDS=[500]`). -/
def cfgExempt : Config :=
  { allowedChatIds := [100], threshold := 7/10, exemptSenderChatIds := [500] }

/-- A channel-authored post (no `from_user`) into allowed chat 100 whose
`sender_chat` is the exempt chat 500, carrying Latin text. -/
def channelPost : Message :=
  { chatId := 100, chatType := ChatType.supergroup, fromUser := none,
    senderChat := some 500, text := some ['x', 'y', 'z'], caption := none,
    entities := [], captionEntities := [], voice := false }

/-! ### Helper lemmas -/

/-- The scenario text `"hello"` trips the Latin-letter check. -/
theorem hello_has_latin : has_forbidden_chars helloText = true := by decide

/-- The Russian text passes the forbidden-character check. -/
theorem privet_clean : has_forbidden_chars privetText = false := by decide

/-- The Russian text contains no URL-pattern match. -/
theorem privet_no_url : urlSearch privetText = false := by decide

/-- The scenario text `"visit http://x.com"` trips the Latin-letter
check (its very first character is a Latin letter). -/
theorem visit_has_latin : has_forbidden_chars visitUrlText = true := by decide

/-- Updating one defaultdict entry changes the sum of a per-chat counter by
exactly the amount the update adds to that counter (the counter is 0 on the
default record inserted for a fresh key). -/
theorem sumBy_updateChat (l : List (Int × ChatStats)) (i : Int)
    (g : ChatStats → ChatStats) (f : ChatStats → Nat) (k : Nat)
    (h0 : f ChatStats.init = 0)
    (hg : ∀ c, f (g c) = f c + k) :
    sumBy (updateChat l i g) f = sumBy l f + k := by
  induction l with
  | nil => simp [updateChat, sumBy, hg, h0]
  | cons hd tl ih =>
    obtain ⟨a, b⟩ := hd
    by_cases h : a = i
    · simp [updateChat, h, sumBy, hg]
      omega
    · simp [updateChat, h, sumBy, ih]
      omega

/-- `add_checked` preserves the cross-counter invariant. -/
theorem statInvariant_add_checked (s : Statistics) (i : Int)
    (h : statInvariant s) : statInvariant (s.add_checked i) := by
  obtain ⟨h1, h2, h3, h4⟩ := h
  have e1 := sumBy_updateChat s.by_chat i
    (fun c => { c with checked := c.checked + 1 }) (fun c => c.checked) 1 rfl
    (fun c => rfl)
  have e2 := sumBy_updateChat s.by_chat i
    (fun c => { c with checked := c.checked + 1 }) (fun c => c.deleted) 0 rfl
    (fun c => rfl)
  have e4 := sumBy_updateChat s.by_chat i
    (fun c => { c with checked := c.checked + 1 }) (fun c => c.banned) 0 rfl
    (fun c => rfl)
  exact ⟨by simp [Statistics.add_checked, e1, h1],
         by simp [Statistics.add_checked, e2, h2],
         by simp [Statistics.add_checked, h3],
         by simp [Statistics.add_checked, e4, h4]⟩

/-- `add_banned` preserves the cross-counter invariant. -/
theorem statInvariant_add_banned (s : Statistics) (i : Int)
    (h : statInvariant s) : statInvariant (s.add_banned i) := by
  obtain ⟨h1, h2, h3, h4⟩ := h
  have e1 := sumBy_updateChat s.by_chat i
    (fun c => { c with banned := c.banned + 1 }) (fun c => c.checked) 0 rfl
    (fun c => rfl)
  have e2 := sumBy_updateChat s.by_chat i
    (fun c => { c with banned := c.banned + 1 }) (fun c => c.deleted) 0 rfl
    (fun c => rfl)
  have e4 := sumBy_updateChat s.by_chat i
    (fun c => { c with banned := c.banned + 1 }) (fun c => c.banned) 1 rfl
    (fun c => rfl)
  exact ⟨by simp [Statistics.add_banned, e1, h1],
         by simp [Statistics.add_banned, e2, h2],
         by simp [Statistics.add_banned, h3],
         by simp [Statistics.add_banned, e4, h4]⟩

/-- `add_deleted` with a recognised deletion type preserves the
cross-counter invariant. -/
theorem statInvariant_add_deleted (s : Statistics) (i : Int) (dt : String)
    (hdt : dt = "forbidden_chars" ∨ dt = "urls" ∨ dt = "profanity")
    (h : statInvariant s) : statInvariant (s.add_deleted i dt) := by
  obtain ⟨h1, h2, h3, h4⟩ := h
  have eD1 := sumBy_updateChat s.by_chat i
    (fun c => { c with deleted := c.deleted + 1 }) (fun c => c.checked) 0 rfl
    (fun c => rfl)
  have eD2 := sumBy_updateChat s.by_chat i
    (fun c => { c with deleted := c.deleted + 1 }) (fun c => c.deleted) 1 rfl
    (fun c => rfl)
  have eD4 := sumBy_updateChat s.by_chat i
    (fun c => { c with deleted := c.deleted + 1 }) (fun c => c.banned) 0 rfl
    (fun c => rfl)
  rcases hdt with rfl | rfl | rfl
  · have eF1 := sumBy_updateChat
      (updateChat s.by_chat i (fun c => { c with deleted := c.deleted + 1 })) i
      (fun c => { c with deleted_forbidden_chars := c.deleted_forbidden_chars + 1 })
      (fun c => c.checked) 0 rfl (fun c => rfl)
    have eF2 := sumBy_updateChat
      (updateChat s.by_chat i (fun c => { c with deleted := c.deleted + 1 })) i
      (fun c => { c with deleted_forbidden_chars := c.deleted_forbidden_chars + 1 })
      (fun c => c.deleted) 0 rfl (fun c => rfl)
    have eF4 := sumBy_updateChat
      (updateChat s.by_chat i (fun c => { c with deleted := c.deleted + 1 })) i
      (fun c => { c with deleted_forbidden_chars := c.deleted_forbidden_chars + 1 })
      (fun c => c.banned) 0 rfl (fun c => rfl)
    refine ⟨?_, ?_, ?_, ?_⟩ <;>
      simp [Statistics.add_deleted, eD1, eD2, eD4, eF1, eF2, eF4,
            h1, h2, h3, h4] <;>
      omega
  · have eU1 := sumBy_updateChat
      (updateChat s.by_chat i (fun c => { c with deleted := c.deleted + 1 })) i
      (fun c => { c with deleted_urls := c.deleted_urls + 1 })
      (fun c => c.checked) 0 rfl (fun c => rfl)
    have eU2 := sumBy_updateChat
      (updateChat s.by_chat i (fun c => { c with deleted := c.deleted + 1 })) i
      (fun c => { c with deleted_urls := c.deleted_urls + 1 })
      (fun c => c.deleted) 0 rfl (fun c => rfl)
    have eU4 := sumBy_updateChat
      (updateChat s.by_chat i (fun c => { c with deleted := c.deleted + 1 })) i
      (fun c => { c with deleted_urls := c.deleted_urls + 1 })
      (fun c => c.banned) 0 rfl (fun c => rfl)
    refine ⟨?_, ?_, ?_, ?_⟩ <;>
      simp [Statistics.add_deleted, eD1, eD2, eD4, eU1, eU2, eU4,
            h1, h2, h3, h4] <;>
      omega
  · have eP1 := sumBy_updateChat
      (updateChat s.by_chat i (fun c => { c with deleted := c.deleted + 1 })) i
      (fun c => { c with deleted_profanity := c.deleted_profanity + 1 })
      (fun c => c.checked) 0 rfl (fun c => rfl)
    have eP2 := sumBy_updateChat
      (updateChat s.by_chat i (fun c => { c with deleted := c.deleted + 1 })) i
      (fun c => { c with deleted_profanity := c.deleted_profanity + 1 })
      (fun c => c.deleted) 0 rfl (fun c => rfl)
    have eP4 := sumBy_updateChat
      (updateChat s.by_chat i (fun c => { c with deleted := c.deleted + 1 })) i
      (fun c => { c with deleted_profanity := c.deleted_profanity + 1 })
      (fun c => c.banned) 0 rfl (fun c => rfl)
    refine ⟨?_, ?_, ?_, ?_⟩ <;>
      simp [Statistics.add_deleted, eD1, eD2, eD4, eP1, eP2, eP4,
            h1, h2, h3, h4] <;>
      omega

/-- One valid statistics call preserves the cross-counter invariant. -/
theorem statInvariant_applyOp (s : Statistics) (op : StatOp)
    (hop : validOp op) (h : statInvariant s) :
    statInvariant (applyOp s op) := by
  cases op with
  | opChecked i => exact statInvariant_add_checked s i h
  | opDeleted i dt => exact statInvariant_add_deleted s i dt hop h
  | opBanned i => exact statInvariant_add_banned s i h

/-- A sequence of valid statistics calls preserves the invariant. -/
theorem statInvariant_applyOps (ops : List StatOp) :
    ∀ s : Statistics, statInvariant s → (∀ op ∈ ops, validOp op) →
      statInvariant (applyOps s ops) := by
  induction ops with
  | nil => intro s h _; exact h
  | cons op rest ih =>
    intro s h hv
    exact ih (applyOp s op)
      (statInvariant_applyOp s op (hv op (by simp)) h)
      (fun o ho => hv o (by simp [ho]))

/-- A freshly reset statistics object satisfies the invariant. -/
theorem statInvariant_reset (s : Statistics) (t : Nat) :
    statInvariant (s.reset t) :=
  ⟨rfl, rfl, rfl, rfl⟩

/-- `add_checked` iterated `n` times adds exactly `n` to `total_checked`. -/
theorem total_checked_iterate (i : Int) (n : Nat) (s : Statistics) :
    ((fun st => Statistics.add_checked st i)^[n] s).total_checked =
      s.total_checked + n := by
  induction n with
  | zero => simp
  | succ k ih =>
    rw [Function.iterate_succ_apply']
    have e : ∀ st : Statistics,
        (Statistics.add_checked st i).total_checked = st.total_checked + 1 :=
      fun st => rfl
    rw [e, ih, Nat.add_assoc]

/-! ### Claim theorems -/

/-- C9: starting from a reset, every sequence of `add_checked`,
`add_deleted` (with a recognised deletion type) and `add_banned` calls
preserves the cross-counter invariant: `total_checked` equals the sum of
per-chat `checked`, `total_deleted` equals the sum of per-chat `deleted`
and also equals `deleted_forbidden_chars + deleted_urls +
deleted_profanity`, and `total_banned` equals the sum of per-chat
`banned`. -/
theorem statistics_cross_counter_invariant (s : Statistics) (t : Nat)
    (ops : List StatOp) (hv : ∀ op ∈ ops, validOp op) :
    statInvariant (applyOps (s.reset t) ops) :=
  statInvariant_applyOps ops (s.reset t) (statInvariant_reset s t) hv

/-- Witness for C9 with a concrete interleaving of all three call kinds
across two chats. -/
theorem statistics_cross_counter_invariant_witness :
    (∀ op ∈ [StatOp.opChecked 1, StatOp.opDeleted 1 "urls",
             StatOp.opChecked 2, StatOp.opDeleted 2 "profanity",
             StatOp.opBanned 2, StatOp.opDeleted 1 "forbidden_chars"],
      validOp op) ∧
    statInvariant (applyOps ((Statistics.init 3).reset 0)
      [StatOp.opChecked 1, StatOp.opDeleted 1 "urls",
       StatOp.opChecked 2, StatOp.opDeleted 2 "profanity",
       StatOp.opBanned 2, StatOp.opDeleted 1 "forbidden_chars"]) :=
  ⟨by decide,
   statistics_cross_counter_invariant (Statistics.init 3) 0 _ (by decide)⟩

/-- C7: after `n` `add_checked` calls since the last reset, the snapshot
taken by `send_daily_stats` reports exactly `n` checked messages, and the
reset that follows reinitializes every counter — global, per-category and
per-chat (the defaultdict is emptied) — and the period-start timestamp. -/
theorem checked_count_snapshot_reset (s : Statistics) (t0 now : Nat)
    (n : Nat) (i : Int) :
    (snapshotAndReset
        ((fun st => Statistics.add_checked st i)^[n] (s.reset t0))
        now).1.total_checked = n ∧
    (snapshotAndReset
        ((fun st => Statistics.add_checked st i)^[n] (s.reset t0))
        now).2 =
      { total_checked := 0, total_deleted := 0,
        deleted_forbidden_chars := 0, deleted_urls := 0,
        deleted_profanity := 0, total_banned := 0,
        by_chat := [], start_date := now } := by
  constructor
  · show ((fun st => Statistics.add_checked st i)^[n]
        (s.reset t0)).total_checked = n
    rw [total_checked_iterate]
    simp [Statistics.reset]
  · rfl

/-- C5: every non-private message in a chat outside the allow-list is
dropped silently: the handler is not called, no deletion or ban is
attempted, and the statistics are untouched. -/
theorem out_of_scope_chat_dropped (cfg : Config) (env : Env) (m : Message)
    (s : Statistics)
    (hk : m.chatType ≠ ChatType.privateChat)
    (ha : cfg.allowedChatIds.contains m.chatId = false) :
    processMessage cfg env m s =
      ⟨Outcome.dropped, false, false, false, s⟩ := by
  have hmem : m.chatId ∉ cfg.allowedChatIds := by simpa using ha
  simp [processMessage, hk, hmem]

/-- Witness for C5: a group message in chat 999, which is not in the
allow-list of `testConfig`. -/
theorem out_of_scope_chat_dropped_witness :
    (textMessage 999 7 helloText).chatType ≠ ChatType.privateChat ∧
    testConfig.allowedChatIds.contains (textMessage 999 7 helloText).chatId
      = false ∧
    processMessage testConfig envOk (textMessage 999 7 helloText)
        (Statistics.init 0) =
      ⟨Outcome.dropped, false, false, false, Statistics.init 0⟩ :=
  ⟨by decide, by decide,
   out_of_scope_chat_dropped testConfig envOk (textMessage 999 7 helloText)
     (Statistics.init 0) (by decide) (by decide)⟩

/-- The Russian scenario text is nonempty (Python truthiness). -/
theorem privet_nonempty : privetText.isEmpty = false := by decide

/-- C1 counterexample: in allowed chat 100 the text `"hello"` is NOT
allowed — its Latin letters trip the forbidden-character classifier, so the
message is deleted (counted under forbidden characters, with the deleted
counter changing), and it is not passed on to the next handler. -/
theorem hello_scenario_not_allowed :
    (processMessage testConfig envOk (textMessage 100 7 helloText)
        (Statistics.init 0)).outcome ≠ Outcome.passedOn ∧
    (processMessage testConfig envOk (textMessage 100 7 helloText)
        (Statistics.init 0)).deleteAttempted = true ∧
    (processMessage testConfig envOk (textMessage 100 7 helloText)
        (Statistics.init 0)).stats.total_deleted = 1 ∧
    (processMessage testConfig envOk (textMessage 100 7 helloText)
        (Statistics.init 0)).stats.deleted_forbidden_chars = 1 := by decide

/-- C1 (amended): for a message in allowed chat 100 whose text is the
Russian `"привет"` (no Latin letters, no links, profanity below threshold),
the verdict is Allowed: the message is not deleted, it is passed on to the
next handler, the checked counter increments by 1 and the deleted counter
does not change. -/
theorem allowed_russian_text_scenario (env : Env) (s : Statistics)
    (hbot : env.hasBot = true)
    (hadm : env.adminLookup = Except.ok MemberStatus.member)
    (hne : env.proba privetText ≠ [])
    (hp : maxProba (env.proba privetText) < testConfig.threshold) :
    processMessage testConfig env (textMessage 100 7 privetText) s =
      ⟨Outcome.passedOn, false, false, false, s.add_checked 100⟩ := by
  have hge : ¬ ((7 : ℚ)/10 ≤ maxProba (env.proba privetText)) := by
    simpa [testConfig] using not_le.mpr hp
  simp [processMessage, textMessage, testConfig, adminSkips, voicePhase,
        textPhase, pyTruthy, pyTruthyId, pyOr, has_urls, hbot, hadm,
        privet_clean, privet_no_url, privet_nonempty, hge]

/-- Witness for C1 (amended) in the all-good environment whose scorer
reports 0.01. -/
theorem allowed_russian_text_scenario_witness :
    maxProba (envOk.proba privetText) < testConfig.threshold ∧
    processMessage testConfig envOk (textMessage 100 7 privetText)
        (Statistics.init 0) =
      ⟨Outcome.passedOn, false, false, false,
        (Statistics.init 0).add_checked 100⟩ :=
  ⟨by norm_num [envOk, maxProba, testConfig],
   allowed_russian_text_scenario envOk (Statistics.init 0) rfl rfl
     (by simp [envOk])
     (by norm_num [envOk, maxProba, testConfig])⟩

/-- The url-scenario text is a nonempty list. -/
theorem visit_ne_nil : visitUrlText ≠ [] := by decide

/-- C2 counterexample: in allowed chat 100 the text `"visit http://x.com"`
is NOT deleted under the Link (urls) category: the Latin-letter check runs
first, so the deletion is counted under forbidden characters and the urls
counter stays 0 (the message is still deleted and no ban is attempted). -/
theorem visit_url_not_counted_as_link :
    (processMessage testConfig envOk visitUrlMessage
        (Statistics.init 0)).stats.deleted_urls = 0 ∧
    (processMessage testConfig envOk visitUrlMessage
        (Statistics.init 0)).stats.deleted_forbidden_chars = 1 ∧
    (processMessage testConfig envOk visitUrlMessage
        (Statistics.init 0)).outcome = Outcome.dropped ∧
    (processMessage testConfig envOk visitUrlMessage
        (Statistics.init 0)).banAttempted = false := by decide

/-- C2 (amended): for a message in allowed chat 100 with text
`"visit http://x.com"`, the verdict is Rejected with category
ForbiddenCharacters (the Latin-letter check precedes the link check): the
message is deleted, the deletion is counted under the forbidden-characters
category, and no ban is attempted. -/
theorem visit_url_scenario_forbidden_chars (env : Env) (s : Statistics)
    (hbot : env.hasBot = true)
    (hadm : env.adminLookup = Except.ok MemberStatus.member)
    (hdel : env.deleteOk = true) :
    processMessage testConfig env visitUrlMessage s =
      ⟨Outcome.dropped, true, false, false,
        (s.add_checked 100).add_deleted 100 "forbidden_chars"⟩ := by
  simp [processMessage, visitUrlMessage, textMessage, testConfig, adminSkips,
        voicePhase, textPhase, pyTruthy, pyTruthyId, pyOr, hbot, hadm, hdel,
        visit_has_latin, visit_ne_nil]

/-- Witness for C2 (amended) in the all-good environment. -/
theorem visit_url_scenario_forbidden_chars_witness :
    envOk.deleteOk = true ∧
    processMessage testConfig envOk visitUrlMessage (Statistics.init 0) =
      ⟨Outcome.dropped, true, false, false,
        ((Statistics.init 0).add_checked 100).add_deleted 100
          "forbidden_chars"⟩ :=
  ⟨rfl,
   visit_url_scenario_forbidden_chars envOk (Statistics.init 0) rfl rfl rfl⟩

/-- C4: the pipeline does not honor `EXEMPT_SENDER_CHAT_IDS`: even though
the configuration declares sender-chat 500 exempt and the channel post
carries that sender-chat id, the message is fully moderated — the
classifier runs, the deletion is attempted and counted. (`processMessage`,
like `__call__` in the source, never reads the exemption list.) -/
theorem exempt_sender_chat_still_moderated :
    cfgExempt.exemptSenderChatIds.contains 500 = true ∧
    channelPost.senderChat = some 500 ∧
    (processMessage cfgExempt envOk channelPost
        (Statistics.init 0)).deleteAttempted = true ∧
    (processMessage cfgExempt envOk channelPost
        (Statistics.init 0)).stats.total_deleted = 1 ∧
    (processMessage cfgExempt envOk channelPost
        (Statistics.init 0)).outcome = Outcome.dropped := by decide

/-- C6: profanity threshold boundary for a text message from a known
non-admin sender with clean characters and no links: when the maximum
segment score equals the configured threshold the message is rejected —
deleted, counted under profanity, and the author banned; when the score is
strictly below the threshold the message is allowed and only the checked
counter moves. -/
theorem profanity_threshold_boundary (cfg : Config) (env : Env)
    (i u : Int) (txt : List Char) (s : Statistics)
    (ha : cfg.allowedChatIds.contains i = true)
    (hu : u ≠ 0)
    (hbot : env.hasBot = true)
    (hadm : env.adminLookup = Except.ok MemberStatus.member)
    (htne : txt ≠ [])
    (hfc : has_forbidden_chars txt = false)
    (hurl : urlSearch txt = false)
    (hne : env.proba txt ≠ [])
    (hdel : env.deleteOk = true) (hban : env.banOk = true) :
    (maxProba (env.proba txt) = cfg.threshold →
      processMessage cfg env (textMessage i u txt) s =
        ⟨Outcome.dropped, true, true, true,
          ((s.add_checked i).add_deleted i "profanity").add_banned i⟩) ∧
    (maxProba (env.proba txt) < cfg.threshold →
      processMessage cfg env (textMessage i u txt) s =
        ⟨Outcome.passedOn, false, false, false, s.add_checked i⟩) := by
  have hmem : i ∈ cfg.allowedChatIds := by simpa using ha
  constructor
  · intro heq
    have hge : cfg.threshold ≤ maxProba (env.proba txt) := le_of_eq heq.symm
    simp [processMessage, textMessage, adminSkips, voicePhase, textPhase,
          pyTruthy, pyTruthyId, pyOr, has_urls, hmem, hu, hbot, hadm, htne,
          hfc, hurl, hdel, hban, hge]
  · intro hlt
    have hge : ¬ (cfg.threshold ≤ maxProba (env.proba txt)) :=
      not_le.mpr hlt
    simp [processMessage, textMessage, adminSkips, voicePhase, textPhase,
          pyTruthy, pyTruthyId, pyOr, has_urls, hmem, hu, hbot, hadm, htne,
          hfc, hurl, hdel, hban, hge]

/-- Witness for C6: the scorer reporting exactly 0.7 on the Russian text
with threshold 0.7 leads to deletion and ban. -/
theorem profanity_threshold_boundary_witness :
    maxProba (envHot.proba privetText) = testConfig.threshold ∧
    processMessage testConfig envHot (textMessage 100 7 privetText)
        (Statistics.init 0) =
      ⟨Outcome.dropped, true, true, true,
        (((Statistics.init 0).add_checked 100).add_deleted 100
          "profanity").add_banned 100⟩ :=
  ⟨rfl,
   (profanity_threshold_boundary testConfig envHot 100 7 privetText
      (Statistics.init 0) rfl (by decide) rfl rfl (by decide) privet_clean
      privet_no_url (by simp [envHot, envOk]) rfl rfl).1 rfl⟩

/-- C8 counterexample: a voice message carrying the caption `"abc"` whose
transcription fails is NOT left untouched: the caption still goes through
the text checks, trips the Latin-letter classifier, and the message is
deleted and counted rather than passed on. -/
theorem voice_caption_still_moderated :
    voiceCaptioned.voice = true ∧
    envOk.transcription = none ∧
    (processMessage testConfig envOk voiceCaptioned
        (Statistics.init 0)).deleteAttempted = true ∧
    (processMessage testConfig envOk voiceCaptioned
        (Statistics.init 0)).outcome = Outcome.dropped ∧
    (processMessage testConfig envOk voiceCaptioned
        (Statistics.init 0)).stats.total_deleted = 1 := by decide

/-- C8 (amended): a voice message with no text and no caption whose
transcription fails (returns None) is left untouched and unmoderated: no
deletion, no ban, no statistics change, and the message is passed on to
the next handler. -/
theorem voice_transcription_failure_untouched (cfg : Config) (env : Env)
    (m : Message) (s : Statistics)
    (hk : m.chatType ≠ ChatType.privateChat)
    (ha : cfg.allowedChatIds.contains m.chatId = true)
    (hadm : adminSkips env (m.fromUser.map User.id) = false)
    (hv : m.voice = true)
    (htr : env.transcription = none)
    (ht : pyTruthy m.text = false)
    (hc : pyTruthy m.caption = false) :
    processMessage cfg env m s =
      ⟨Outcome.passedOn, false, false, false, s⟩ := by
  have hmem : m.chatId ∈ cfg.allowedChatIds := by simpa using ha
  simp [processMessage, voicePhase, textPhase, hk, hmem, hadm, hv, htr, ht,
        hc]

/-- Witness for C8 (amended): a caption-less voice message whose
transcription fails. -/
theorem voice_transcription_failure_untouched_witness :
    voicePure.voice = true ∧
    envOk.transcription = none ∧
    processMessage testConfig envOk voicePure (Statistics.init 0) =
      ⟨Outcome.passedOn, false, false, false, Statistics.init 0⟩ :=
  ⟨rfl, rfl,
   voice_transcription_failure_untouched testConfig envOk voicePure
     (Statistics.init 0) (by decide) (by decide) (by decide) rfl rfl rfl
     rfl⟩

/-- The clean Russian caption passes the forbidden-character check. -/
theorem oy_clean : has_forbidden_chars ['о', 'й'] = false := by decide

/-- The clean Russian caption contains no URL-pattern match. -/
theorem oy_no_url : urlSearch ['о', 'й'] = false := by decide

/-- C10 counterexample: a voice message whose transcription succeeds and
passes every check but which carries a clean caption DOES increment a
statistics counter: the caption path runs `add_checked`, so checked rises
to 1 even though the message is passed on. -/
theorem voice_allowed_with_caption_counts_checked :
    voiceCapClean.voice = true ∧
    envVoiceOk.transcription = some privetText ∧
    has_forbidden_chars privetText = false ∧
    (processMessage testConfig envVoiceOk voiceCapClean
        (Statistics.init 0)).outcome = Outcome.passedOn ∧
    (processMessage testConfig envVoiceOk voiceCapClean
        (Statistics.init 0)).stats.total_checked = 1 := by
  have hlt : ¬ ((7 : ℚ)/10 ≤ (100 : ℚ)⁻¹) := by norm_num
  have hres : processMessage testConfig envVoiceOk voiceCapClean
      (Statistics.init 0) =
      ⟨Outcome.passedOn, false, false, false,
        (Statistics.init 0).add_checked 100⟩ := by
    simp [processMessage, voiceCapClean, voiceCaptioned, voicePhase,
          textPhase, adminSkips, testConfig, envVoiceOk, envOk, pyTruthy,
          pyTruthyId, pyOr, has_urls, maxProba, privet_clean, oy_clean,
          oy_no_url, hlt]
  exact ⟨rfl, rfl, privet_clean, by rw [hres], by rw [hres]; rfl⟩

/-- C10 (amended): for a voice message with no text and no caption whose
transcription succeeds and whose transcript passes both the
forbidden-character check and the profanity check, no statistics counter is
incremented — in particular checked is not recorded, unlike an allowed text
message — and the message is passed on to the next handler. -/
theorem voice_allowed_no_statistics (cfg : Config) (env : Env)
    (m : Message) (s : Statistics) (t : List Char)
    (hk : m.chatType ≠ ChatType.privateChat)
    (ha : cfg.allowedChatIds.contains m.chatId = true)
    (hadm : adminSkips env (m.fromUser.map User.id) = false)
    (hv : m.voice = true)
    (hbot : env.hasBot = true)
    (htr : env.transcription = some t)
    (hfc : has_forbidden_chars t = false)
    (hne : env.proba t ≠ [])
    (hp : maxProba (env.proba t) < cfg.threshold)
    (ht : pyTruthy m.text = false)
    (hc : pyTruthy m.caption = false) :
    processMessage cfg env m s =
      ⟨Outcome.passedOn, false, false, false, s⟩ := by
  have hmem : m.chatId ∈ cfg.allowedChatIds := by simpa using ha
  have hge : ¬ (cfg.threshold ≤ maxProba (env.proba t)) := not_le.mpr hp
  simp [processMessage, voicePhase, textPhase, hk, hmem, hadm, hv, hbot,
        htr, hfc, hge, ht, hc]

/-- Witness for C10 (amended): a caption-less voice message transcribed to
the clean Russian text with a low score. -/
theorem voice_allowed_no_statistics_witness :
    voicePure.voice = true ∧
    envVoiceOk.transcription = some privetText ∧
    processMessage testConfig envVoiceOk voicePure (Statistics.init 0) =
      ⟨Outcome.passedOn, false, false, false, Statistics.init 0⟩ :=
  ⟨rfl, rfl,
   voice_allowed_no_statistics testConfig envVoiceOk voicePure
     (Statistics.init 0) privetText (by decide) (by decide) (by decide) rfl
     rfl rfl privet_clean (by simp [envVoiceOk, envOk])
     (by norm_num [envVoiceOk, envOk, maxProba, testConfig]) rfl rfl⟩
